import Mathlib

/-!
Shallow embedding of the Bootstrap Method performance engine of
`create_sheet.py`.  The engineering content of the repository is the set of
spreadsheet formulas written by `create_tab4_performance` (density ratio,
GAGPC propeller-efficiency interpolation, slow-down factor, drag polar,
performance table, V-speed extraction) and by `create_tab2_flight_tests`
(the glide-test regression).  Every definition below is a direct translation
of one worksheet cell formula (cell addresses are cited in the comments);
real numbers stand for the double-precision arithmetic of the sheet.
-/

noncomputable section

namespace Bootstrap

/-- Aircraft data plate, rows 19-30 of the Performance Calculator tab
(S=B19, B=B20, P0=B21, N0=B22, d=B23, CD0=B24, e=B25, TAF=B26, Z=B27,
tractor flag=B28, BB=B29, C=B30). -/
structure AircraftDataPlate where
  S : ℝ
  B : ℝ
  P0 : ℝ
  N0 : ℝ
  d : ℝ
  CD0 : ℝ
  e : ℝ
  TAF : ℝ
  Z : ℝ
  tractor : Bool
  BB : ℝ
  C : ℝ

/-- Operational variables, rows 33-36 of the Performance Calculator tab
(W=B33, h=B34, N=B35, pctPower=B36). -/
structure OperatingCondition where
  W : ℝ
  h : ℝ
  N : ℝ
  pctPower : ℝ

/-- One row of the performance table, columns A-Q of rows 95-255. -/
structure PerfPoint where
  kcas : ℝ
  ktas : ℝ
  vfps : ℝ
  j : ℝ
  hprop : ℝ
  etaLo : ℝ
  etaHi : ℝ
  eta : ℝ
  thrust : ℝ
  q : ℝ
  dp : ℝ
  di : ℝ
  drag : ℝ
  roc : ℝ
  aoc : ℝ
  ros : ℝ
  aog : ℝ

/-- The five optimum V-speeds, rows 55-59.  The worksheet INDEX/MATCH
formulas error out on an empty table, hence the Option types for the four
optimum rows; the VM cell is a plain number because MAXIFS always yields a
value (0 when no row matches its criterion). -/
structure VSpeedSet where
  vy : Option (ℝ × ℝ)
  vx : Option (ℝ × ℝ)
  vbg : Option (ℝ × ℝ)
  vmd : Option (ℝ × ℝ)
  vm : ℝ

/-- Result of the glide-test curve fit of tab 2 (cells B53, B54, B56, B49). -/
structure DragPolarFit where
  CD0 : ℝ
  e : ℝ
  r2 : ℝ
  vbgTAS : ℝ

/-! ### Static constant tables -/

/-- CPX breakpoints, cells C5:J5 of the Performance Calculator tab,
indexed 1-8 as the worksheet INDEX function does. -/
def cpxBp : ℕ → ℝ
  | 1 => 0.15
  | 2 => 0.25
  | 3 => 0.40
  | 4 => 0.60
  | 5 => 0.80
  | 6 => 1.00
  | 7 => 1.20
  | 8 => 1.40
  | _ => 0

/-- GAGPC polynomial coefficients, cells C6:J12: column `col` (1-8, one per
CPX breakpoint) and coefficient index `ci` (0-6 for the constant up to the
degree-6 term).  Values are the `gagpc` literal of `create_sheet.py`. -/
def gagpcCol (col ci : ℕ) : ℝ :=
  match col, ci with
  | 1, 0 => -0.027280541925
  | 1, 1 => 1.157818942224
  | 1, 2 => -0.548923123013
  | 1, 3 => 0.038551650269
  | 1, 4 => 0.064580555280
  | 1, 5 => -0.026301243311
  | 1, 6 => 0.003017419881
  | 2, 0 => -0.038502996895
  | 2, 1 => 1.046135815788
  | 2, 2 => -0.485313329667
  | 2, 3 => 0.130100232509
  | 2, 4 => -0.027326610124
  | 2, 5 => 0.003139013961
  | 2, 6 => -0.000131566345
  | 3, 0 => -0.026741905000
  | 3, 1 => 0.717582413500
  | 3, 2 => -0.084673350000
  | 3, 3 => -0.074451680000
  | 3, 4 => 0.026437051000
  | 3, 5 => -0.003537565000
  | 3, 6 => 0.000177733000
  | 4, 0 => 0.038100252152
  | 4, 1 => 0.199522455590
  | 4, 2 => 0.458898025445
  | 4, 3 => -0.318992736679
  | 4, 4 => 0.081357821405
  | 4, 5 => -0.009083801712
  | 4, 6 => 0.000350613126
  | 5, 0 => 0.251897476000
  | 5, 1 => -0.561665840000
  | 5, 2 => 1.139055130000
  | 5, 3 => -0.602193330000
  | 5, 4 => 0.144341736000
  | 5, 5 => -0.016194730000
  | 5, 6 => 0.000664038000
  | 6, 0 => 0.140144145675
  | 6, 1 => 0.071636129794
  | 6, 2 => -0.057356417627
  | 6, 3 => 0.276378945894
  | 6, 4 => -0.159843307011
  | 6, 5 => 0.034239846258
  | 6, 6 => -0.002573002786
  | 7, 0 => -0.705604050000
  | 7, 1 => 2.868232531000
  | 7, 2 => -3.651371295000
  | 7, 3 => 2.487262933000
  | 7, 4 => -0.863421200000
  | 7, 5 => 0.146478331500
  | 7, 6 => -0.009686855000
  | 8, 0 => -2.340532183939
  | 8, 1 => 7.563937897150
  | 8, 2 => -9.020964992475
  | 8, 3 => 5.550045133294
  | 8, 4 => -1.793776917489
  | 8, 5 => 0.291020480454
  | 8, 6 => -0.018743169313
  | _, _ => 0

/-- Tractor slow-down-factor cubic, cells B15:E15 applied in B44:
B15 + C15*Z + D15*Z^2 + E15*Z^3 with the tractor coefficient row. -/
def sdfTractor (z : ℝ) : ℝ :=
  1.05263 + (-0.00722) * z + (-0.16462) * z ^ 2 + (-0.18341) * z ^ 3

/-- Pusher slow-down-factor cubic, cells B16:E16 applied in B44. -/
def sdfPusher (z : ℝ) : ℝ :=
  1.05263 + (-0.04185) * z + (-0.01481) * z ^ 2 + (-0.62001) * z ^ 3

/-! ### Computed constants, cells B39-B52 -/

/-- Cell B39: density ratio, (1-0.003566*B34/518.7)^(1/0.234957). -/
def sigmaF (c : OperatingCondition) : ℝ :=
  (1 - 0.003566 * c.h / 518.7) ^ ((1 : ℝ) / 0.234957)

/-- Cell B40: air density, 0.002377*B39. -/
def rhoF (c : OperatingCondition) : ℝ := 0.002377 * sigmaF c

/-- Cell B41: Gagg-Ferrar power lapse, (B39-B30)/(1-B30).  This is the only
cell that reads the power-dropoff constant C. -/
def phiF (p : AircraftDataPlate) (c : OperatingCondition) : ℝ :=
  (sigmaF c - p.C) / (1 - p.C)

/-- Cell B42: power adjustment factor, 0.001515*B26-0.0880. -/
def Xfactor (p : AircraftDataPlate) : ℝ := 0.001515 * p.TAF - 0.0880

/-- Cell B43: aspect ratio, B20^2/B19. -/
def aspectA (p : AircraftDataPlate) : ℝ := p.B ^ 2 / p.S

/-- Cell B44: slow-down factor, IF(B28=1, tractor cubic, pusher cubic). -/
def sdfVal (p : AircraftDataPlate) : ℝ :=
  if p.tractor then sdfTractor p.Z else sdfPusher p.Z

/-- Cell B45: shaft power in ft-lbf/s, B36*B21*550. -/
def powerP (p : AircraftDataPlate) (c : OperatingCondition) : ℝ :=
  c.pctPower * p.P0 * 550

/-- Cell B46: propeller revolutions per second, B35/60. -/
def nRevF (c : OperatingCondition) : ℝ := c.N / 60

/-- Cell B47: power coefficient, B45/(B40*B46^3*B23^5). -/
def cpF (p : AircraftDataPlate) (c : OperatingCondition) : ℝ :=
  powerP p c / (rhoF c * nRevF c ^ 3 * p.d ^ 5)

/-- Cell B48: the clamp MIN(MAX(ratio,0.15),1.40) applied to CPX = CP/X. -/
def cpxClamp (ratio : ℝ) : ℝ := min (max ratio 0.15) 1.40

/-- Cell B48 with its input cells: clamped CPX = MIN(MAX(B47/B42,0.15),1.40). -/
def cpxVal (p : AircraftDataPlate) (c : OperatingCondition) : ℝ :=
  cpxClamp (cpF p c / Xfactor p)

/-- The worksheet MATCH(cpx, C5:J5, 1): position of the largest breakpoint
that is at most cpx.  The breakpoint row is sorted, and the argument fed to
it (cell B48) is always at least 0.15, so the approximate MATCH is exactly
this nested comparison chain. -/
def gagpcMatch (cpx : ℝ) : ℕ :=
  if cpx < 0.25 then 1
  else if cpx < 0.40 then 2
  else if cpx < 0.60 then 3
  else if cpx < 0.80 then 4
  else if cpx < 1.00 then 5
  else if cpx < 1.20 then 6
  else if cpx < 1.40 then 7
  else 8

/-- Cell B49: bracket index, MIN(MATCH(B48,C5:J5,1),7). -/
def bracketIdx (cpx : ℝ) : ℕ := min (gagpcMatch cpx) 7

/-- Cell B52: interpolation fraction, (B48-B50)/(B51-B50) with
B50 = INDEX(C5:J5,1,B49) and B51 = INDEX(C5:J5,1,B49+1). -/
def interpFraction (cpx : ℝ) : ℝ :=
  (cpx - cpxBp (bracketIdx cpx)) / (cpxBp (bracketIdx cpx + 1) - cpxBp (bracketIdx cpx))

/-- Horner evaluation exactly as built by the `horner` helper of
`create_sheet.py`: c0 + h*(c1 + h*(c2 + h*(c3 + h*(c4 + h*(c5 + h*c6))))). -/
def horner (c : ℕ → ℝ) (h : ℝ) : ℝ :=
  c 0 + h * (c 1 + h * (c 2 + h * (c 3 + h * (c 4 + h * (c 5 + h * c 6)))))

/-- The GAGPC lookup: clamp the raw ratio CP/X (cell B48), bracket it
(cells B49-B52), evaluate the two bracketing degree-6 polynomials by Horner
(columns F and G of a table row) and blend them scaled by the slow-down
factor (column H). -/
def gagpcEta (sdfv ratio hp : ℝ) : ℝ :=
  sdfv * (horner (gagpcCol (bracketIdx (cpxClamp ratio))) hp +
    interpFraction (cpxClamp ratio) *
      (horner (gagpcCol (bracketIdx (cpxClamp ratio) + 1)) hp -
        horner (gagpcCol (bracketIdx (cpxClamp ratio))) hp))

/-! ### Performance table row, columns A-Q of rows 95-255 -/

/-- Excel DEGREES: radians times 180 over pi. -/
def degreesF (x : ℝ) : ℝ := x * 180 / Real.pi

/-- Column B: KTAS = A/SQRT(B39).  The data plate is threaded through every
column function even where a column reads only the operating condition. -/
def ktasF (_p : AircraftDataPlate) (c : OperatingCondition) (kcas : ℝ) : ℝ :=
  kcas / Real.sqrt (sigmaF c)

/-- Column C: true airspeed in ft/s, B/0.5924838. -/
def vfpsF (p : AircraftDataPlate) (c : OperatingCondition) (kcas : ℝ) : ℝ :=
  ktasF p c kcas / 0.5924838

/-- Column D: advance ratio, C/(B46*B23). -/
def jF (p : AircraftDataPlate) (c : OperatingCondition) (kcas : ℝ) : ℝ :=
  vfpsF p c kcas / (nRevF c * p.d)

/-- Column E: speed-power coefficient, D/B47^(1/3). -/
def hPropF (p : AircraftDataPlate) (c : OperatingCondition) (kcas : ℝ) : ℝ :=
  jF p c kcas / cpF p c ^ ((1 : ℝ) / 3)

/-- Column F: lower bracketing polynomial at h (Horner form). -/
def etaLoF (p : AircraftDataPlate) (c : OperatingCondition) (kcas : ℝ) : ℝ :=
  horner (gagpcCol (bracketIdx (cpxVal p c))) (hPropF p c kcas)

/-- Column G: upper bracketing polynomial at h (Horner form). -/
def etaHiF (p : AircraftDataPlate) (c : OperatingCondition) (kcas : ℝ) : ℝ :=
  horner (gagpcCol (bracketIdx (cpxVal p c) + 1)) (hPropF p c kcas)

/-- Column H: blended efficiency, B44*(F + B52*(G-F)). -/
def etaF (p : AircraftDataPlate) (c : OperatingCondition) (kcas : ℝ) : ℝ :=
  gagpcEta (sdfVal p) (cpF p c / Xfactor p) (hPropF p c kcas)

/-- Column I: thrust, H*B45/C. -/
def thrustF (p : AircraftDataPlate) (c : OperatingCondition) (kcas : ℝ) : ℝ :=
  etaF p c kcas * powerP p c / vfpsF p c kcas

/-- Column J: dynamic pressure, 0.5*B40*C^2. -/
def qF (p : AircraftDataPlate) (c : OperatingCondition) (kcas : ℝ) : ℝ :=
  0.5 * rhoF c * vfpsF p c kcas ^ 2

/-- Column K: parasite drag, B24*J*B19. -/
def dpF (p : AircraftDataPlate) (c : OperatingCondition) (kcas : ℝ) : ℝ :=
  p.CD0 * qF p c kcas * p.S

/-- Column L: induced drag, B33^2/(J*B19*PI()*B43*B25). -/
def diF (p : AircraftDataPlate) (c : OperatingCondition) (kcas : ℝ) : ℝ :=
  c.W ^ 2 / (qF p c kcas * p.S * Real.pi * aspectA p * p.e)

/-- Column M: total drag, K+L. -/
def dragF (p : AircraftDataPlate) (c : OperatingCondition) (kcas : ℝ) : ℝ :=
  dpF p c kcas + diF p c kcas

/-- Column N: rate of climb, (I-M)*C/B33*60. -/
def rocF (p : AircraftDataPlate) (c : OperatingCondition) (kcas : ℝ) : ℝ :=
  (thrustF p c kcas - dragF p c kcas) * vfpsF p c kcas / c.W * 60

/-- Column O: angle of climb, DEGREES(ASIN(MIN(1,MAX(-1,(I-M)/B33)))). -/
def aocF (p : AircraftDataPlate) (c : OperatingCondition) (kcas : ℝ) : ℝ :=
  degreesF (Real.arcsin (min 1 (max (-1) ((thrustF p c kcas - dragF p c kcas) / c.W))))

/-- Column P: rate of sink, M*C/B33*60. -/
def rosF (p : AircraftDataPlate) (c : OperatingCondition) (kcas : ℝ) : ℝ :=
  dragF p c kcas * vfpsF p c kcas / c.W * 60

/-- Column Q: angle of glide, DEGREES(ASIN(MIN(1,MAX(-1,M/B33)))). -/
def aogF (p : AircraftDataPlate) (c : OperatingCondition) (kcas : ℝ) : ℝ :=
  degreesF (Real.arcsin (min 1 (max (-1) (dragF p c kcas / c.W))))

/-- One full performance-table row at a given KCAS. -/
def perfPoint (p : AircraftDataPlate) (c : OperatingCondition) (kcas : ℝ) : PerfPoint :=
  ⟨kcas, ktasF p c kcas, vfpsF p c kcas, jF p c kcas, hPropF p c kcas,
   etaLoF p c kcas, etaHiF p c kcas, etaF p c kcas, thrustF p c kcas,
   qF p c kcas, dpF p c kcas, diF p c kcas, dragF p c kcas,
   rocF p c kcas, aocF p c kcas, rosF p c kcas, aogF p c kcas⟩

/-- The engine API of the spec: one PerfPoint per requested KCAS, in order. -/
def compute_performance_table (p : AircraftDataPlate) (c : OperatingCondition)
    (sweep : List ℝ) : List PerfPoint :=
  sweep.map (perfPoint p c)

/-- The default sweep written by the generator loop:
`for i in range(161): kcas = 60.0 + i * 0.5`. -/
def defaultSweep : List ℝ := (List.range 161).map (fun i : ℕ => 60 + (i : ℝ) * 0.5)

/-- Rows 95-255 of the worksheet. -/
def perfTable (p : AircraftDataPlate) (c : OperatingCondition) : List PerfPoint :=
  compute_performance_table p c defaultSweep

/-! ### V-speed extraction, rows 55-59 -/

/-- First row attaining the maximum of f, mirroring
INDEX(A,MATCH(MAX(col),col,0)): MATCH with 0 finds the first exact
occurrence of the maximum, so a later row replaces the current best only
when strictly larger. -/
def argmaxFirst {α : Type} (f : α → ℝ) : List α → Option α
  | [] => none
  | a :: l =>
    match argmaxFirst f l with
    | none => some a
    | some b => if f a < f b then some b else some a

/-- First row attaining the minimum of f, mirroring
INDEX(A,MATCH(MIN(col),col,0)). -/
def argminFirst {α : Type} (f : α → ℝ) : List α → Option α
  | [] => none
  | a :: l =>
    match argminFirst f l with
    | none => some a
    | some b => if f b < f a then some b else some a

/-- Internal accumulator for the MAXIFS evaluation: the maximum of the KCAS
values of the rows with positive ROC, with `none` encoding an empty
eligible set (so that the maximum of an all-negative eligible set is not
conflated with the no-match case). -/
def vmMaxAux : List PerfPoint → Option ℝ
  | [] => none
  | r :: rest =>
    match vmMaxAux rest with
    | none => if 0 < r.roc then some r.kcas else none
    | some v => if 0 < r.roc then some (max r.kcas v) else some v

/-- Cell B59, VM = MAXIFS(A95:A255,N95:N255,">0"): the largest KCAS among
rows with positive ROC.  MAXIFS yields the plain number 0 when no row
matches the criterion — there is no error channel. -/
def vmSearch (tbl : List PerfPoint) : ℝ := (vmMaxAux tbl).getD 0

/-- Rows 55-59: the five optimum V-speeds extracted from the table. -/
def extract_vspeeds (tbl : List PerfPoint) : VSpeedSet :=
  ⟨Option.map (fun r => (r.kcas, r.roc)) (argmaxFirst (fun r => r.roc) tbl),
   Option.map (fun r => (r.kcas, r.aoc)) (argmaxFirst (fun r => r.aoc) tbl),
   Option.map (fun r => (r.kcas, r.aog)) (argminFirst (fun r => r.aog) tbl),
   Option.map (fun r => (r.kcas, r.ros)) (argminFirst (fun r => r.ros) tbl),
   vmSearch tbl⟩

/-! ### Glide-test regression, tab 2 cells B46-B56 -/

/-- Arithmetic mean of n values. -/
def meanF (n : ℕ) (v : Fin n → ℝ) : ℝ := (∑ i, v i) / (n : ℝ)

/-- Centered second moment of x (the denominator of the worksheet SLOPE). -/
def sxxF (n : ℕ) (x : Fin n → ℝ) : ℝ := ∑ i, (x i - meanF n x) ^ 2

/-- Centered cross moment of x and y (the numerator of the worksheet SLOPE). -/
def sxyF (n : ℕ) (x y : Fin n → ℝ) : ℝ :=
  ∑ i, (x i - meanF n x) * (y i - meanF n y)

/-- Cell B47, SLOPE(I32:I43,J32:J43): the ordinary-least-squares slope. -/
def slopeF (n : ℕ) (x y : Fin n → ℝ) : ℝ := sxyF n x y / sxxF n x

/-- Cell B48, INTERCEPT(I32:I43,J32:J43). -/
def interceptF (n : ℕ) (x y : Fin n → ℝ) : ℝ :=
  meanF n y - slopeF n x y * meanF n x

/-- Cell B56, RSQ(I32:I43,J32:J43): squared Pearson correlation. -/
def rsqF (n : ℕ) (x y : Fin n → ℝ) : ℝ :=
  sxyF n x y ^ 2 / (sxxF n x * sxxF n y)

/-- Tab 2 curve-fit extractor: regression basis x = TAS^4 (column J),
y = TAS/dt (column I), then CD0 = a*2*W*dH/(rho*S) (cell B53),
e = 2*W/(b*rho*S*PI()*A*dH) (cell B54), RSQ (cell B56) and
Vbg TAS = (b/a)^0.25 (cell B49). -/
def fit_drag_polar (n : ℕ) (tas dt : Fin n → ℝ) (W dH rhoA S A : ℝ) : DragPolarFit :=
  ⟨slopeF n (fun i => tas i ^ 4) (fun i => tas i / dt i) * 2 * W * dH / (rhoA * S),
   2 * W / (interceptF n (fun i => tas i ^ 4) (fun i => tas i / dt i) *
     rhoA * S * Real.pi * A * dH),
   rsqF n (fun i => tas i ^ 4) (fun i => tas i / dt i),
   (interceptF n (fun i => tas i ^ 4) (fun i => tas i / dt i) /
     slopeF n (fun i => tas i ^ 4) (fun i => tas i / dt i)) ^ ((0.25 : ℝ))⟩

/-! ### R182 reference scenario and auxiliary constants -/

/-- Replace the power-dropoff constant C of a data plate. -/
def setC (p : AircraftDataPlate) (cv : ℝ) : AircraftDataPlate :=
  ⟨p.S, p.B, p.P0, p.N0, p.d, p.CD0, p.e, p.TAF, p.Z, p.tractor, p.BB, cv⟩

/-- R182 data plate of the validation section (rows 19-30 defaults), with
CD0 and e left as parameters because the sheet links them from the
flight-test tab. -/
def r182plate (cd0v ev : ℝ) : AircraftDataPlate :=
  ⟨174, 36, 235, 2400, 6.83, cd0v, ev, 195.9, 0.688, true, 2, 0.12⟩

/-- R182 operating condition of the validation section (rows 33-36). -/
def r182cond : OperatingCondition := ⟨3100, 8000, 2300, 0.65⟩

/-- A concrete performance row used to instantiate extraction theorems. -/
def samplePoint : PerfPoint :=
  ⟨60, 61, 100, 1, 1, 0.5, 0.6, 0.55, 400, 10, 50, 100, 150, 1, 2, 3, 4⟩

/-- A concrete performance row with negative rate of climb (thrust below
drag), used to exercise the VM search with no eligible row. -/
def stallPoint : PerfPoint :=
  ⟨60, 61, 100, 1, 1, 0.5, 0.6, 0.55, 100, 10, 50, 100, 150, -1, 2, 3, 4⟩

/-! ### Theorems -/

/-- C1: at every performance-table row, the propeller efficiency equals
SDF times (eta_lo + fraction*(eta_hi - eta_lo)), where eta_lo and eta_hi
are the degree-6 GAGPC polynomials of the two bracketing CPX breakpoints
evaluated at h_prop in the Horner form c0 + h*(c1 + h*(c2 + h*(c3 + h*(c4 +
h*(c5 + h*c6))))), the fraction is (CPX - lo)/(hi - lo), and SDF is the
cubic c0 + c1*Z + c2*Z^2 + c3*Z^3 with the tractor coefficients
(1.05263, -0.00722, -0.16462, -0.18341) or the pusher coefficients
(1.05263, -0.04185, -0.01481, -0.62001) selected by the tractor flag. -/
theorem eta_row_formula (p : AircraftDataPlate) (c : OperatingCondition) (kcas : ℝ) :
    (perfPoint p c kcas).eta =
      (if p.tractor then
        1.05263 + (-0.00722) * p.Z + (-0.16462) * p.Z ^ 2 + (-0.18341) * p.Z ^ 3
      else
        1.05263 + (-0.04185) * p.Z + (-0.01481) * p.Z ^ 2 + (-0.62001) * p.Z ^ 3) *
      (let hp := (perfPoint p c kcas).hprop
       let k := bracketIdx (cpxVal p c)
       let lo := gagpcCol k 0 + hp * (gagpcCol k 1 + hp * (gagpcCol k 2 +
         hp * (gagpcCol k 3 + hp * (gagpcCol k 4 + hp * (gagpcCol k 5 +
           hp * gagpcCol k 6)))))
       let hi := gagpcCol (k + 1) 0 + hp * (gagpcCol (k + 1) 1 + hp * (gagpcCol (k + 1) 2 +
         hp * (gagpcCol (k + 1) 3 + hp * (gagpcCol (k + 1) 4 + hp * (gagpcCol (k + 1) 5 +
           hp * gagpcCol (k + 1) 6)))))
       lo + (cpxVal p c - cpxBp k) / (cpxBp (k + 1) - cpxBp k) * (hi - lo)) := by
  cases hb : p.tractor <;>
    simp only [perfPoint, etaF, gagpcEta, sdfVal, sdfTractor, sdfPusher, hb,
      horner, interpFraction, cpxVal, if_true, if_false, Bool.false_eq_true,
      ite_true, ite_false]

/-- C3: at every row of the performance table the derived fields equal the
specified closed forms: KTAS = KCAS/sqrt(sigma); V_fps = KTAS/0.5924838;
J = V_fps/(n*d) with n = RPM/60; h_prop = J/CP^(1/3) with
CP = P/(rho*n^3*d^5) and P = pctPower*P0*550; Thrust = eta*P/V_fps;
q = 0.5*rho*V_fps^2; Dp = CD0*q*S; Di = W^2/(q*S*pi*A*e) with A = B^2/S;
Drag = Dp + Di; ROC = (Thrust-Drag)*V_fps/W*60; ROS = Drag*V_fps/W*60. -/
theorem row_closed_forms (p : AircraftDataPlate) (c : OperatingCondition) (kcas : ℝ) :
    (perfPoint p c kcas).ktas = kcas / Real.sqrt (sigmaF c) ∧
    (perfPoint p c kcas).vfps = (perfPoint p c kcas).ktas / 0.5924838 ∧
    (perfPoint p c kcas).j = (perfPoint p c kcas).vfps / (c.N / 60 * p.d) ∧
    (perfPoint p c kcas).hprop = (perfPoint p c kcas).j /
      (c.pctPower * p.P0 * 550 / (rhoF c * (c.N / 60) ^ 3 * p.d ^ 5)) ^ ((1 : ℝ) / 3) ∧
    (perfPoint p c kcas).thrust =
      (perfPoint p c kcas).eta * (c.pctPower * p.P0 * 550) / (perfPoint p c kcas).vfps ∧
    (perfPoint p c kcas).q = 0.5 * rhoF c * (perfPoint p c kcas).vfps ^ 2 ∧
    (perfPoint p c kcas).dp = p.CD0 * (perfPoint p c kcas).q * p.S ∧
    (perfPoint p c kcas).di =
      c.W ^ 2 / ((perfPoint p c kcas).q * p.S * Real.pi * (p.B ^ 2 / p.S) * p.e) ∧
    (perfPoint p c kcas).drag = (perfPoint p c kcas).dp + (perfPoint p c kcas).di ∧
    (perfPoint p c kcas).roc =
      ((perfPoint p c kcas).thrust - (perfPoint p c kcas).drag) *
        (perfPoint p c kcas).vfps / c.W * 60 ∧
    (perfPoint p c kcas).ros = (perfPoint p c kcas).drag * (perfPoint p c kcas).vfps / c.W * 60 :=
  ⟨rfl, rfl, rfl, rfl, rfl, rfl, rfl, rfl, rfl, rfl, rfl⟩

/-- C7: the AOC and AOG columns clamp the inverse-sine argument
((Thrust-Drag)/W and Drag/W) to the interval from -1 to 1 before applying
arcsin, for every input; the clamped argument always lies in that interval,
and consequently both angles are well defined and lie between -90 and 90
degrees (no domain violation, no NaN, no error channel: the functions are
total and the clamp is silent). -/
theorem aoc_aog_arcsin_clamped (p : AircraftDataPlate) (c : OperatingCondition) (kcas : ℝ) :
    (-1 ≤ min 1 (max (-1) (((perfPoint p c kcas).thrust - (perfPoint p c kcas).drag) / c.W)) ∧
      min 1 (max (-1) (((perfPoint p c kcas).thrust - (perfPoint p c kcas).drag) / c.W)) ≤ 1) ∧
    (perfPoint p c kcas).aoc = degreesF (Real.arcsin
      (min 1 (max (-1) (((perfPoint p c kcas).thrust - (perfPoint p c kcas).drag) / c.W)))) ∧
    (-1 ≤ min 1 (max (-1) ((perfPoint p c kcas).drag / c.W)) ∧
      min 1 (max (-1) ((perfPoint p c kcas).drag / c.W)) ≤ 1) ∧
    (perfPoint p c kcas).aog =
      degreesF (Real.arcsin (min 1 (max (-1) ((perfPoint p c kcas).drag / c.W)))) ∧
    (-90 ≤ (perfPoint p c kcas).aoc ∧ (perfPoint p c kcas).aoc ≤ 90) ∧
    (-90 ≤ (perfPoint p c kcas).aog ∧ (perfPoint p c kcas).aog ≤ 90) := by
  have hclamp : ∀ x : ℝ, -1 ≤ min 1 (max (-1) x) ∧ min 1 (max (-1) x) ≤ 1 := by
    intro x
    exact ⟨le_min (by norm_num) (le_max_left _ _), min_le_left _ _⟩
  have hdeg : ∀ x : ℝ, -90 ≤ degreesF (Real.arcsin x) ∧ degreesF (Real.arcsin x) ≤ 90 := by
    intro x
    have hpi := Real.pi_pos
    have h1 := Real.neg_pi_div_two_le_arcsin x
    have h2 := Real.arcsin_le_pi_div_two x
    constructor
    · have : (-(Real.pi / 2)) * 180 / Real.pi ≤ Real.arcsin x * 180 / Real.pi := by
        apply div_le_div_of_nonneg_right ?_ hpi.le
        nlinarith
      calc (-90 : ℝ) = (-(Real.pi / 2)) * 180 / Real.pi := by field_simp; ring
        _ ≤ Real.arcsin x * 180 / Real.pi := this
        _ = degreesF (Real.arcsin x) := rfl
    · have : Real.arcsin x * 180 / Real.pi ≤ (Real.pi / 2) * 180 / Real.pi := by
        apply div_le_div_of_nonneg_right ?_ hpi.le
        nlinarith
      calc degreesF (Real.arcsin x) = Real.arcsin x * 180 / Real.pi := rfl
        _ ≤ (Real.pi / 2) * 180 / Real.pi := this
        _ = 90 := by field_simp; ring
  exact ⟨hclamp _, rfl, hclamp _, rfl, hdeg _, hdeg _⟩

/-- C10: two inputs that differ only in the altitude power-dropoff constant
C produce identical performance tables and identical extracted V-speeds; C
feeds only the displayed power-lapse factor phi = (sigma - C)/(1 - C),
which no table or V-speed formula reads. -/
theorem power_dropoff_noninterference (p : AircraftDataPlate) (c : OperatingCondition)
    (c1 c2 : ℝ) :
    perfTable (setC p c1) c = perfTable (setC p c2) c ∧
    extract_vspeeds (perfTable (setC p c1) c) = extract_vspeeds (perfTable (setC p c2) c) ∧
    phiF (setC p c1) c = (sigmaF c - c1) / (1 - c1) :=
  ⟨rfl, rfl, rfl⟩

/-- C2: the GAGPC lookup clamps CPX = CP/X to the interval from 0.15 to
1.40 and is total (no error for out-of-range CPX); the returned eta is
invariant under the clamping, so a raw ratio of 0.10 yields exactly the
same eta as 0.15, any ratio at most 0.15 yields the 0.15-breakpoint
polynomial value, and any ratio at least 1.40 yields the 1.40-breakpoint
polynomial value — boundary values, never extrapolation. -/
theorem gagpc_clamp_invariant :
    (∀ ratio : ℝ, 0.15 ≤ cpxClamp ratio ∧ cpxClamp ratio ≤ 1.40) ∧
    (∀ s hp : ℝ, gagpcEta s 0.10 hp = gagpcEta s 0.15 hp) ∧
    (∀ s ratio hp : ℝ, ratio ≤ 0.15 → gagpcEta s ratio hp = s * horner (gagpcCol 1) hp) ∧
    (∀ s ratio hp : ℝ, 1.40 ≤ ratio → gagpcEta s ratio hp = s * horner (gagpcCol 8) hp) := by
  have hlow : ∀ ratio : ℝ, ratio ≤ 0.15 → cpxClamp ratio = 0.15 := by
    intro r h
    unfold cpxClamp
    rw [max_eq_right h, min_eq_left (by norm_num)]
  have hhigh : ∀ ratio : ℝ, 1.40 ≤ ratio → cpxClamp ratio = 1.40 := by
    intro r h
    unfold cpxClamp
    rw [max_eq_left (le_trans (by norm_num) h), min_eq_right h]
  have hb1 : bracketIdx (0.15 : ℝ) = 1 := by norm_num [bracketIdx, gagpcMatch]
  have hb7 : bracketIdx (1.40 : ℝ) = 7 := by norm_num [bracketIdx, gagpcMatch]
  have hf0 : interpFraction (0.15 : ℝ) = 0 := by
    rw [interpFraction, hb1]
    norm_num [cpxBp]
  have hf1 : interpFraction (1.40 : ℝ) = 1 := by
    rw [interpFraction, hb7]
    norm_num [cpxBp]
  have heta_lo : ∀ s ratio hp : ℝ, ratio ≤ 0.15 →
      gagpcEta s ratio hp = s * horner (gagpcCol 1) hp := by
    intro s r hp h
    unfold gagpcEta
    rw [hlow r h, hb1, hf0]
    ring
  have heta_hi : ∀ s ratio hp : ℝ, 1.40 ≤ ratio →
      gagpcEta s ratio hp = s * horner (gagpcCol 8) hp := by
    intro s r hp h
    unfold gagpcEta
    rw [hhigh r h, hb7, hf1]
    ring
  refine ⟨?_, ?_, heta_lo, heta_hi⟩
  · intro r
    exact ⟨le_min (le_max_right _ _) (by norm_num), min_le_right _ _⟩
  · intro s hp
    rw [heta_lo s 0.10 hp (by norm_num), heta_lo s 0.15 hp le_rfl]

/-- Witness for C2 at concrete inputs. -/
theorem gagpc_clamp_invariant_witness :
    gagpcEta 1 0.10 2 = gagpcEta 1 0.15 2 ∧
    gagpcEta 1 0.05 2 = 1 * horner (gagpcCol 1) 2 ∧
    gagpcEta 1 2 2 = 1 * horner (gagpcCol 8) 2 ∧
    (0.15 ≤ cpxClamp 0.5 ∧ cpxClamp 0.5 ≤ 1.40) :=
  ⟨gagpc_clamp_invariant.2.1 1 2,
   gagpc_clamp_invariant.2.2.1 1 0.05 2 (by norm_num),
   gagpc_clamp_invariant.2.2.2 1 2 2 (by norm_num),
   gagpc_clamp_invariant.1 0.5⟩

/-- C4: the performance table has exactly 161 rows (the default sweep from
60 to 140 KCAS in 0.5-kt steps), row i carries KCAS = 60 + 0.5*i, the KCAS
column is strictly increasing, and every row is the pure function
`perfPoint` of its own KCAS plus the two immutable inputs — for any
requested sweep the output length matches the sweep and row i depends only
on sweep entry i. -/
theorem perf_table_shape (p : AircraftDataPlate) (c : OperatingCondition) :
    (perfTable p c).length = 161 ∧
    (perfTable p c).Pairwise (fun r s => r.kcas < s.kcas) ∧
    (∀ i : ℕ, i < 161 →
      (perfTable p c)[i]? = some (perfPoint p c (60 + (i : ℝ) * 0.5))) ∧
    (∀ sweep : List ℝ, (compute_performance_table p c sweep).length = sweep.length) ∧
    (∀ sweep : List ℝ, ∀ i : ℕ,
      (compute_performance_table p c sweep)[i]? = sweep[i]?.map (perfPoint p c)) := by
  refine ⟨?_, ?_, ?_, ?_, ?_⟩
  · rw [perfTable, compute_performance_table, defaultSweep, List.length_map,
      List.length_map, List.length_range]
  · rw [perfTable, compute_performance_table, defaultSweep, List.map_map,
      List.pairwise_map]
    refine List.Pairwise.imp ?_ (List.pairwise_lt_range 161)
    intro a b hab
    show (perfPoint p c (60 + (a : ℝ) * 0.5)).kcas < (perfPoint p c (60 + (b : ℝ) * 0.5)).kcas
    show (60 : ℝ) + (a : ℝ) * 0.5 < 60 + (b : ℝ) * 0.5
    have : (a : ℝ) < (b : ℝ) := by exact_mod_cast hab
    linarith
  · intro i hi
    rw [perfTable, compute_performance_table, defaultSweep, List.map_map,
      List.getElem?_map, List.getElem?_range hi]
    rfl
  · intro sweep
    rw [compute_performance_table, List.length_map]
  · intro sweep i
    rw [compute_performance_table, List.getElem?_map]

/-- Witness for C4 at the R182 scenario, row 0. -/
theorem perf_table_shape_witness :
    (perfTable (r182plate 1 1) r182cond)[0]? =
      some (perfPoint (r182plate 1 1) r182cond (60 + ((0 : ℕ) : ℝ) * 0.5)) :=
  (perf_table_shape (r182plate 1 1) r182cond).2.2.1 0 (by norm_num)

/-- Helper: the eligible-set maximum is empty exactly when no row has a
positive rate of climb. -/
theorem vmMaxAux_none_iff (l : List PerfPoint) :
    vmMaxAux l = none ↔ ∀ r ∈ l, r.roc ≤ 0 := by
  induction l with
  | nil => simp [vmMaxAux]
  | cons a l ih =>
    cases hrest : vmMaxAux l with
    | none =>
      simp only [vmMaxAux, hrest]
      constructor
      · intro h
        by_cases hroc : 0 < a.roc
        · rw [if_pos hroc] at h
          exact absurd h (by simp)
        · intro r hr
          rcases List.mem_cons.mp hr with hxa | hxl
          · rw [hxa]; exact le_of_not_lt hroc
          · exact (ih.mp hrest) r hxl
      · intro h
        have hna : ¬ 0 < a.roc := not_lt.mpr (h a (List.mem_cons_self a l))
        rw [if_neg hna]
    | some v =>
      simp only [vmMaxAux, hrest]
      constructor
      · intro h
        by_cases hroc : 0 < a.roc
        · rw [if_pos hroc] at h
          exact absurd h (by simp)
        · rw [if_neg hroc] at h
          exact absurd h (by simp)
      · intro h
        exfalso
        have hnone : vmMaxAux l = none :=
          ih.mpr (fun r hr => h r (List.mem_cons_of_mem a hr))
        rw [hnone] at hrest
        exact Option.noConfusion hrest

/-- Helper: when the eligible-set maximum exists, it is the KCAS of an
eligible row (positive ROC) and bounds the KCAS of every eligible row. -/
theorem vmMaxAux_some_spec (l : List PerfPoint) :
    ∀ v : ℝ, vmMaxAux l = some v →
      (∃ r ∈ l, 0 < r.roc ∧ r.kcas = v) ∧ ∀ r ∈ l, 0 < r.roc → r.kcas ≤ v := by
  induction l with
  | nil => intro v h; simp [vmMaxAux] at h
  | cons a l ih =>
    intro v h
    simp only [vmMaxAux] at h
    cases hrest : vmMaxAux l with
    | none =>
      rw [hrest] at h
      simp only [] at h
      by_cases hroc : 0 < a.roc
      · rw [if_pos hroc] at h
        have hv : a.kcas = v := Option.some.inj h
        refine ⟨⟨a, List.mem_cons_self a l, hroc, hv⟩, ?_⟩
        intro r hr hrroc
        rcases List.mem_cons.mp hr with hxa | hxl
        · rw [hxa, hv]
        · exact absurd hrroc (not_lt.mpr ((vmMaxAux_none_iff l).mp hrest r hxl))
      · rw [if_neg hroc] at h
        exact absurd h (by simp)
    | some w =>
      rw [hrest] at h
      simp only [] at h
      obtain ⟨⟨s, hs, hsroc, hskcas⟩, hbound⟩ := ih w hrest
      by_cases hroc : 0 < a.roc
      · rw [if_pos hroc] at h
        have hv : max a.kcas w = v := Option.some.inj h
        constructor
        · rcases le_total a.kcas w with hcase | hcase
          · exact ⟨s, List.mem_cons_of_mem a hs, hsroc, by
              rw [hskcas, ← hv, max_eq_right hcase]⟩
          · exact ⟨a, List.mem_cons_self a l, hroc, by rw [← hv, max_eq_left hcase]⟩
        · intro r hr hrroc
          rcases List.mem_cons.mp hr with hxa | hxl
          · rw [hxa, ← hv]; exact le_max_left _ _
          · rw [← hv]; exact le_trans (hbound r hxl hrroc) (le_max_right _ _)
      · rw [if_neg hroc] at h
        have hv : w = v := Option.some.inj h
        refine ⟨⟨s, List.mem_cons_of_mem a hs, hsroc, by rw [hskcas, hv]⟩, ?_⟩
        intro r hr hrroc
        rcases List.mem_cons.mp hr with hxa | hxl
        · rw [hxa] at hrroc; exact absurd hrroc hroc
        · rw [← hv]; exact hbound r hxl hrroc

/-- C5 counterexample: on a table in which no row has ROC > 0 the VM
extraction does not fail with a NotFound report; cell B59 evaluates to the
plain number 0, the MAXIFS no-match default, which is not the KCAS of any
row of the table. -/
theorem vm_notfound_counterexample :
    (∀ r ∈ [stallPoint], r.roc ≤ 0) ∧
    (extract_vspeeds [stallPoint]).vm = 0 ∧
    ∀ r ∈ [stallPoint], r.kcas ≠ (extract_vspeeds [stallPoint]).vm := by
  have haux : vmMaxAux [stallPoint] = none := by
    show (if 0 < stallPoint.roc then some stallPoint.kcas else none) = none
    rw [if_neg (show ¬ 0 < stallPoint.roc by norm_num [stallPoint])]
  have hvm : (extract_vspeeds [stallPoint]).vm = 0 := by
    show (vmMaxAux [stallPoint]).getD 0 = 0
    rw [haux]
    rfl
  refine ⟨?_, hvm, ?_⟩
  · intro r hr
    have hr1 : r = stallPoint := by simpa using hr
    rw [hr1]
    norm_num [stallPoint]
  · intro r hr
    have hr1 : r = stallPoint := by simpa using hr
    rw [hr1, hvm]
    norm_num [stallPoint]

/-- C5 (amended): the extracted VM is the largest KCAS among rows with
ROC > 0 (thrust exceeding drag) whenever at least one such row exists; when
no row of the table satisfies ROC > 0 the extraction does not fail — cell
B59 silently yields the MAXIFS no-match default 0. -/
theorem vm_largest_or_zero (tbl : List PerfPoint) :
    ((∃ r ∈ tbl, 0 < r.roc) →
      (∃ r ∈ tbl, 0 < r.roc ∧ r.kcas = (extract_vspeeds tbl).vm) ∧
        ∀ r ∈ tbl, 0 < r.roc → r.kcas ≤ (extract_vspeeds tbl).vm) ∧
    ((∀ r ∈ tbl, r.roc ≤ 0) → (extract_vspeeds tbl).vm = 0) := by
  constructor
  · intro hex
    cases haux : vmMaxAux tbl with
    | none =>
      obtain ⟨r, hr, hroc⟩ := hex
      exact absurd hroc (not_lt.mpr ((vmMaxAux_none_iff tbl).mp haux r hr))
    | some v =>
      have hvm : (extract_vspeeds tbl).vm = v := by
        show (vmMaxAux tbl).getD 0 = v
        rw [haux]
        rfl
      rw [hvm]
      exact vmMaxAux_some_spec tbl v haux
  · intro hall
    have haux : vmMaxAux tbl = none := (vmMaxAux_none_iff tbl).mpr hall
    show (vmMaxAux tbl).getD 0 = 0
    rw [haux]
    rfl

/-- Witness for the amended C5 on a one-row table with positive ROC. -/
theorem vm_largest_or_zero_witness :
    (∃ r ∈ [samplePoint], 0 < r.roc ∧ r.kcas = (extract_vspeeds [samplePoint]).vm) ∧
      ∀ r ∈ [samplePoint], 0 < r.roc → r.kcas ≤ (extract_vspeeds [samplePoint]).vm :=
  (vm_largest_or_zero [samplePoint]).1
    ⟨samplePoint, List.mem_cons_self samplePoint [], by norm_num [samplePoint]⟩

/-- Helper: `argmaxFirst` returns the first row attaining the maximum of f:
the returned index attains the maximum and every strictly earlier index has
a strictly smaller value. -/
theorem argmaxFirst_spec {α : Type} (f : α → ℝ) :
    ∀ l : List α, l ≠ [] →
      ∃ (i : ℕ) (hi : i < l.length),
        argmaxFirst f l = some (l.get ⟨i, hi⟩) ∧
        (∀ (j : ℕ) (hj : j < l.length), f (l.get ⟨j, hj⟩) ≤ f (l.get ⟨i, hi⟩)) ∧
        (∀ (j : ℕ) (hj : j < l.length), j < i →
          f (l.get ⟨j, hj⟩) < f (l.get ⟨i, hi⟩)) := by
  intro l
  induction l with
  | nil => intro h; exact absurd rfl h
  | cons a l ih =>
    intro _
    cases l with
    | nil =>
      refine ⟨0, by norm_num, by simp [argmaxFirst], ?_, ?_⟩
      · intro j hj
        have hj0 : j = 0 := by
          simp only [List.length_cons, List.length_nil] at hj
          omega
        subst hj0
        exact le_rfl
      · intro j hj hj0
        omega
    | cons b m =>
      obtain ⟨i, hi, heq, hmax, hfirst⟩ := ih (by simp)
      have hstep : argmaxFirst f (a :: b :: m) =
          if f a < f ((b :: m).get ⟨i, hi⟩) then some ((b :: m).get ⟨i, hi⟩)
          else some a := by
        rw [argmaxFirst, heq]
      by_cases hc : f a < f ((b :: m).get ⟨i, hi⟩)
      · refine ⟨i + 1, by simpa using Nat.succ_lt_succ hi, ?_, ?_, ?_⟩
        · rw [hstep, if_pos hc]
          rfl
        · intro j hj
          cases j with
          | zero => simpa using hc.le
          | succ j =>
            have hj2 : j < (b :: m).length := by simpa using Nat.lt_of_succ_lt_succ hj
            simpa using hmax j hj2
        · intro j hj hlt
          cases j with
          | zero => simpa using hc
          | succ j =>
            have hj2 : j < (b :: m).length := by simpa using Nat.lt_of_succ_lt_succ hj
            have hji : j < i := Nat.lt_of_succ_lt_succ hlt
            simpa using hfirst j hj2 hji
      · refine ⟨0, by norm_num, ?_, ?_, ?_⟩
        · rw [hstep, if_neg hc]
          rfl
        · intro j hj
          cases j with
          | zero => exact le_rfl
          | succ j =>
            have hj2 : j < (b :: m).length := by simpa using Nat.lt_of_succ_lt_succ hj
            have h1 := hmax j hj2
            have h2 := not_lt.mp hc
            simpa using h1.trans h2
        · intro j hj hlt
          omega

/-- Helper: the min search is the max search of the negated objective. -/
theorem argminFirst_eq_argmaxFirst_neg {α : Type} (f : α → ℝ) (l : List α) :
    argminFirst f l = argmaxFirst (fun x => -f x) l := by
  induction l with
  | nil => rfl
  | cons a l ih =>
    simp only [argminFirst, argmaxFirst, ih, neg_lt_neg_iff]

/-- Helper: `argminFirst` returns the first row attaining the minimum. -/
theorem argminFirst_spec {α : Type} (f : α → ℝ) (l : List α) (hne : l ≠ []) :
    ∃ (i : ℕ) (hi : i < l.length),
      argminFirst f l = some (l.get ⟨i, hi⟩) ∧
      (∀ (j : ℕ) (hj : j < l.length), f (l.get ⟨i, hi⟩) ≤ f (l.get ⟨j, hj⟩)) ∧
      (∀ (j : ℕ) (hj : j < l.length), j < i →
        f (l.get ⟨i, hi⟩) < f (l.get ⟨j, hj⟩)) := by
  obtain ⟨i, hi, heq, hmax, hfirst⟩ := argmaxFirst_spec (fun x => -f x) l hne
  refine ⟨i, hi, ?_, ?_, ?_⟩
  · rw [argminFirst_eq_argmaxFirst_neg]
    exact heq
  · intro j hj
    have := hmax j hj
    simpa using this
  · intro j hj hlt
    have := hfirst j hj hlt
    simpa using this

/-- C6: the extractor returns Vy as the (speed, ROC) of the row with
maximum ROC, Vx as the row with maximum AOC, Vbg as the row with minimum
AOG and Vmd as the row with minimum ROS, in each case deterministically
selecting the first occurrence in table order (ascending speed) when the
optimum is attained more than once. -/
theorem vspeeds_optimum_first_occurrence (tbl : List PerfPoint) (hne : tbl ≠ []) :
    (∃ (i : ℕ) (hi : i < tbl.length),
      (extract_vspeeds tbl).vy =
        some ((tbl.get ⟨i, hi⟩).kcas, (tbl.get ⟨i, hi⟩).roc) ∧
      (∀ (j : ℕ) (hj : j < tbl.length), (tbl.get ⟨j, hj⟩).roc ≤ (tbl.get ⟨i, hi⟩).roc) ∧
      (∀ (j : ℕ) (hj : j < tbl.length), j < i →
        (tbl.get ⟨j, hj⟩).roc < (tbl.get ⟨i, hi⟩).roc)) ∧
    (∃ (i : ℕ) (hi : i < tbl.length),
      (extract_vspeeds tbl).vx =
        some ((tbl.get ⟨i, hi⟩).kcas, (tbl.get ⟨i, hi⟩).aoc) ∧
      (∀ (j : ℕ) (hj : j < tbl.length), (tbl.get ⟨j, hj⟩).aoc ≤ (tbl.get ⟨i, hi⟩).aoc) ∧
      (∀ (j : ℕ) (hj : j < tbl.length), j < i →
        (tbl.get ⟨j, hj⟩).aoc < (tbl.get ⟨i, hi⟩).aoc)) ∧
    (∃ (i : ℕ) (hi : i < tbl.length),
      (extract_vspeeds tbl).vbg =
        some ((tbl.get ⟨i, hi⟩).kcas, (tbl.get ⟨i, hi⟩).aog) ∧
      (∀ (j : ℕ) (hj : j < tbl.length), (tbl.get ⟨i, hi⟩).aog ≤ (tbl.get ⟨j, hj⟩).aog) ∧
      (∀ (j : ℕ) (hj : j < tbl.length), j < i →
        (tbl.get ⟨i, hi⟩).aog < (tbl.get ⟨j, hj⟩).aog)) ∧
    (∃ (i : ℕ) (hi : i < tbl.length),
      (extract_vspeeds tbl).vmd =
        some ((tbl.get ⟨i, hi⟩).kcas, (tbl.get ⟨i, hi⟩).ros) ∧
      (∀ (j : ℕ) (hj : j < tbl.length), (tbl.get ⟨i, hi⟩).ros ≤ (tbl.get ⟨j, hj⟩).ros) ∧
      (∀ (j : ℕ) (hj : j < tbl.length), j < i →
        (tbl.get ⟨i, hi⟩).ros < (tbl.get ⟨j, hj⟩).ros)) := by
  refine ⟨?_, ?_, ?_, ?_⟩
  · obtain ⟨i, hi, heq, hmax, hfirst⟩ := argmaxFirst_spec (fun r => r.roc) tbl hne
    refine ⟨i, hi, ?_, hmax, hfirst⟩
    show Option.map (fun r => (r.kcas, r.roc)) (argmaxFirst (fun r => r.roc) tbl) = _
    rw [heq]
    rfl
  · obtain ⟨i, hi, heq, hmax, hfirst⟩ := argmaxFirst_spec (fun r => r.aoc) tbl hne
    refine ⟨i, hi, ?_, hmax, hfirst⟩
    show Option.map (fun r => (r.kcas, r.aoc)) (argmaxFirst (fun r => r.aoc) tbl) = _
    rw [heq]
    rfl
  · obtain ⟨i, hi, heq, hmin, hfirst⟩ := argminFirst_spec (fun r => r.aog) tbl hne
    refine ⟨i, hi, ?_, hmin, hfirst⟩
    show Option.map (fun r => (r.kcas, r.aog)) (argminFirst (fun r => r.aog) tbl) = _
    rw [heq]
    rfl
  · obtain ⟨i, hi, heq, hmin, hfirst⟩ := argminFirst_spec (fun r => r.ros) tbl hne
    refine ⟨i, hi, ?_, hmin, hfirst⟩
    show Option.map (fun r => (r.kcas, r.ros)) (argminFirst (fun r => r.ros) tbl) = _
    rw [heq]
    rfl

/-- Witness for C6 on a concrete nonempty table. -/
theorem vspeeds_optimum_first_occurrence_witness :
    ∃ (i : ℕ) (hi : i < ([samplePoint] : List PerfPoint).length),
      (extract_vspeeds [samplePoint]).vy =
        some ((([samplePoint] : List PerfPoint).get ⟨i, hi⟩).kcas,
          (([samplePoint] : List PerfPoint).get ⟨i, hi⟩).roc) ∧
      (∀ (j : ℕ) (hj : j < ([samplePoint] : List PerfPoint).length),
        (([samplePoint] : List PerfPoint).get ⟨j, hj⟩).roc ≤
          (([samplePoint] : List PerfPoint).get ⟨i, hi⟩).roc) ∧
      (∀ (j : ℕ) (hj : j < ([samplePoint] : List PerfPoint).length), j < i →
        (([samplePoint] : List PerfPoint).get ⟨j, hj⟩).roc <
          (([samplePoint] : List PerfPoint).get ⟨i, hi⟩).roc) :=
  (vspeeds_optimum_first_occurrence [samplePoint] (by
    exact List.cons_ne_nil samplePoint [])).1

/-- Helper: the mean of an affine image. -/
theorem meanF_affine (n : ℕ) (hn : n ≠ 0) (x : Fin n → ℝ) (a b : ℝ) :
    meanF n (fun i => a * x i + b) = a * meanF n x + b := by
  have hnr : ((n : ℕ) : ℝ) ≠ 0 := Nat.cast_ne_zero.mpr hn
  unfold meanF
  rw [Finset.sum_add_distrib, ← Finset.mul_sum, Finset.sum_const, Finset.card_univ,
    Fintype.card_fin, nsmul_eq_mul]
  field_simp
  ring

/-- Helper: the cross moment against an affine image of x. -/
theorem sxyF_affine (n : ℕ) (hn : n ≠ 0) (x : Fin n → ℝ) (a b : ℝ) :
    sxyF n x (fun i => a * x i + b) = a * sxxF n x := by
  unfold sxyF sxxF
  rw [meanF_affine n hn x a b, Finset.mul_sum]
  apply Finset.sum_congr rfl
  intro i _
  ring

/-- Helper: the second moment of an affine image of x. -/
theorem sxxF_affine (n : ℕ) (hn : n ≠ 0) (x : Fin n → ℝ) (a b : ℝ) :
    sxxF n (fun i => a * x i + b) = a ^ 2 * sxxF n x := by
  unfold sxxF
  rw [meanF_affine n hn x a b, Finset.mul_sum]
  apply Finset.sum_congr rfl
  intro i _
  ring

/-- Helper: with nonzero x-spread, n is nonzero. -/
theorem sxxF_ne_zero_n (n : ℕ) (x : Fin n → ℝ) (hsxx : sxxF n x ≠ 0) : n ≠ 0 := by
  rintro rfl
  exact hsxx (by simp [sxxF])

/-- Helper: OLS on exactly linear data recovers the slope. -/
theorem slopeF_affine (n : ℕ) (x : Fin n → ℝ) (a b : ℝ) (hsxx : sxxF n x ≠ 0) :
    slopeF n x (fun i => a * x i + b) = a := by
  have hn := sxxF_ne_zero_n n x hsxx
  unfold slopeF
  rw [sxyF_affine n hn x a b, mul_div_assoc, div_self hsxx, mul_one]

/-- Helper: OLS on exactly linear data recovers the intercept. -/
theorem interceptF_affine (n : ℕ) (x : Fin n → ℝ) (a b : ℝ) (hsxx : sxxF n x ≠ 0) :
    interceptF n x (fun i => a * x i + b) = b := by
  have hn := sxxF_ne_zero_n n x hsxx
  unfold interceptF
  rw [slopeF_affine n x a b hsxx, meanF_affine n hn x a b]
  ring

/-- Helper: R squared on exactly linear data with nonzero slope is 1. -/
theorem rsqF_affine (n : ℕ) (x : Fin n → ℝ) (a b : ℝ) (hsxx : sxxF n x ≠ 0)
    (ha : a ≠ 0) :
    rsqF n x (fun i => a * x i + b) = 1 := by
  have hn := sxxF_ne_zero_n n x hsxx
  unfold rsqF
  rw [sxyF_affine n hn x a b, sxxF_affine n hn x a b]
  rw [div_eq_one_iff_eq (by
    exact mul_ne_zero hsxx (mul_ne_zero (pow_ne_zero 2 ha) hsxx))]
  ring

/-- C9: `fit_drag_polar` transforms each glide run into x = TAS^4 and
y = TAS/dt, performs ordinary least-squares regression y = a*x + b, and
returns CD0 = a*2*W*dH/(rho*S), e = 2*W/(b*rho*S*pi*A*dH) and
Vbg_TAS = (b/a)^0.25; on synthetic glide data generated exactly (zero
noise) from known CD0 and e it recovers those CD0 and e exactly, with
R squared equal to 1. -/
theorem fit_drag_polar_ok (n : ℕ) (tas dt : Fin n → ℝ) (W dH rhoA S A : ℝ) :
    ((fit_drag_polar n tas dt W dH rhoA S A).CD0 =
        slopeF n (fun i => tas i ^ 4) (fun i => tas i / dt i) * 2 * W * dH / (rhoA * S) ∧
      (fit_drag_polar n tas dt W dH rhoA S A).e =
        2 * W / (interceptF n (fun i => tas i ^ 4) (fun i => tas i / dt i) *
          rhoA * S * Real.pi * A * dH) ∧
      (fit_drag_polar n tas dt W dH rhoA S A).vbgTAS =
        (interceptF n (fun i => tas i ^ 4) (fun i => tas i / dt i) /
          slopeF n (fun i => tas i ^ 4) (fun i => tas i / dt i)) ^ ((0.25 : ℝ)) ∧
      (fit_drag_polar n tas dt W dH rhoA S A).r2 =
        rsqF n (fun i => tas i ^ 4) (fun i => tas i / dt i)) ∧
    (∀ CD0v e0 : ℝ, 0 < W → 0 < dH → 0 < rhoA → 0 < S → 0 < A → 0 < CD0v → 0 < e0 →
      (∀ i, 0 < tas i) →
      (∀ i, dt i = tas i / (CD0v * rhoA * S / (2 * W * dH) * tas i ^ 4 +
        2 * W / (rhoA * S * Real.pi * A * e0 * dH))) →
      sxxF n (fun i => tas i ^ 4) ≠ 0 →
      (fit_drag_polar n tas dt W dH rhoA S A).CD0 = CD0v ∧
        (fit_drag_polar n tas dt W dH rhoA S A).e = e0 ∧
        (fit_drag_polar n tas dt W dH rhoA S A).r2 = 1) := by
  refine ⟨⟨rfl, rfl, rfl, rfl⟩, ?_⟩
  intro CD0v e0 hW hdH hrho hS hA hC he htas hdt hsxx
  have hpi := Real.pi_pos
  have ha0 : 0 < CD0v * rhoA * S / (2 * W * dH) := by positivity
  have hb0 : 0 < 2 * W / (rhoA * S * Real.pi * A * e0 * dH) := by positivity
  have hy : (fun i => tas i / dt i) =
      fun i => CD0v * rhoA * S / (2 * W * dH) * tas i ^ 4 +
        2 * W / (rhoA * S * Real.pi * A * e0 * dH) := by
    funext i
    rw [hdt i]
    have htpos := htas i
    have hden : 0 < CD0v * rhoA * S / (2 * W * dH) * tas i ^ 4 +
        2 * W / (rhoA * S * Real.pi * A * e0 * dH) := by positivity
    field_simp
    ring
  have hyx : (fun i => tas i / dt i) =
      fun i => CD0v * rhoA * S / (2 * W * dH) * (fun k => tas k ^ 4) i +
        2 * W / (rhoA * S * Real.pi * A * e0 * dH) := hy
  have hslope : slopeF n (fun i => tas i ^ 4) (fun i => tas i / dt i) =
      CD0v * rhoA * S / (2 * W * dH) := by
    rw [hyx]
    exact slopeF_affine n (fun i => tas i ^ 4) _ _ hsxx
  have hint : interceptF n (fun i => tas i ^ 4) (fun i => tas i / dt i) =
      2 * W / (rhoA * S * Real.pi * A * e0 * dH) := by
    rw [hyx]
    exact interceptF_affine n (fun i => tas i ^ 4) _ _ hsxx
  have hrsq : rsqF n (fun i => tas i ^ 4) (fun i => tas i / dt i) = 1 := by
    rw [hyx]
    exact rsqF_affine n (fun i => tas i ^ 4) _ _ hsxx ha0.ne'
  refine ⟨?_, ?_, ?_⟩
  · show slopeF n (fun i => tas i ^ 4) (fun i => tas i / dt i) * 2 * W * dH /
        (rhoA * S) = CD0v
    rw [hslope]
    field_simp
    ring
  · show 2 * W / (interceptF n (fun i => tas i ^ 4) (fun i => tas i / dt i) *
        rhoA * S * Real.pi * A * dH) = e0
    rw [hint]
    rw [div_eq_iff (by positivity)]
    field_simp
    ring
  · exact hrsq

/-- Witness for C9: two synthetic zero-noise glide runs generated from
CD0 = 1 and e = 1 with all plate constants 1. -/
theorem fit_drag_polar_ok_witness :
    (fit_drag_polar 2 (fun i => (i : ℝ) + 1)
        (fun i => ((i : ℝ) + 1) / (1 * 1 * 1 / (2 * 1 * 1) * ((i : ℝ) + 1) ^ 4 +
          2 * 1 / (1 * 1 * Real.pi * 1 * 1 * 1))) 1 1 1 1 1).CD0 = 1 ∧
    (fit_drag_polar 2 (fun i => (i : ℝ) + 1)
        (fun i => ((i : ℝ) + 1) / (1 * 1 * 1 / (2 * 1 * 1) * ((i : ℝ) + 1) ^ 4 +
          2 * 1 / (1 * 1 * Real.pi * 1 * 1 * 1))) 1 1 1 1 1).e = 1 ∧
    (fit_drag_polar 2 (fun i => (i : ℝ) + 1)
        (fun i => ((i : ℝ) + 1) / (1 * 1 * 1 / (2 * 1 * 1) * ((i : ℝ) + 1) ^ 4 +
          2 * 1 / (1 * 1 * Real.pi * 1 * 1 * 1))) 1 1 1 1 1).r2 = 1 :=
  (fit_drag_polar_ok 2 (fun i => (i : ℝ) + 1)
      (fun i => ((i : ℝ) + 1) / (1 * 1 * 1 / (2 * 1 * 1) * ((i : ℝ) + 1) ^ 4 +
        2 * 1 / (1 * 1 * Real.pi * 1 * 1 * 1))) 1 1 1 1 1).2 1 1
    (by norm_num) (by norm_num) (by norm_num) (by norm_num) (by norm_num)
    (by norm_num) (by norm_num)
    (by
      intro i
      have : (0 : ℝ) ≤ (i : ℝ) := Nat.cast_nonneg _
      linarith)
    (fun i => rfl)
    (by
      simp only [sxxF, meanF, Fin.sum_univ_two, Fin.val_zero, Fin.val_one,
        Nat.cast_zero, Nat.cast_one, Nat.cast_ofNat]
      norm_num)

/-- Helper: upper rational bound on the R182 density ratio.  The exponent
1/0.234957 is at least 17/4, the base is in (0,1], so sigma is at most the
base to the 17/4, certified by comparing 4th and 17th integer powers. -/
theorem sigma_r182_le : sigmaF r182cond ≤ 0.7864 := by
  have hx0 : (0 : ℝ) < 1 - 0.003566 * 8000 / 518.7 := by norm_num
  have hx1 : (1 : ℝ) - 0.003566 * 8000 / 518.7 ≤ 1 := by norm_num
  have hexp : (17 / 4 : ℝ) ≤ 1 / 0.234957 := by norm_num
  have h1 : sigmaF r182cond ≤ (1 - 0.003566 * 8000 / 518.7) ^ ((17 / 4 : ℝ)) := by
    show (1 - 0.003566 * 8000 / 518.7 : ℝ) ^ ((1 : ℝ) / 0.234957) ≤ _
    exact Real.rpow_le_rpow_of_exponent_ge hx0 hx1 hexp
  refine le_trans h1 ?_
  by_contra hcon
  push_neg at hcon
  have h4 : ((0.7864 : ℝ)) ^ (4 : ℕ) <
      ((1 - 0.003566 * 8000 / 518.7 : ℝ) ^ ((17 / 4 : ℝ))) ^ (4 : ℕ) :=
    pow_lt_pow_left hcon (by norm_num) (by norm_num)
  have heq : ((1 - 0.003566 * 8000 / 518.7 : ℝ) ^ ((17 / 4 : ℝ))) ^ (4 : ℕ) =
      (1 - 0.003566 * 8000 / 518.7 : ℝ) ^ (17 : ℕ) := by
    rw [← Real.rpow_natCast ((1 - 0.003566 * 8000 / 518.7 : ℝ) ^ ((17 / 4 : ℝ))) 4,
      ← Real.rpow_mul hx0.le]
    rw [show (17 / 4 : ℝ) * ((4 : ℕ) : ℝ) = ((17 : ℕ) : ℝ) by push_cast; ring,
      Real.rpow_natCast]
  rw [heq] at h4
  have hcert : ((1 : ℝ) - 0.003566 * 8000 / 518.7) ^ (17 : ℕ) ≤ (0.7864 : ℝ) ^ (4 : ℕ) := by
    norm_num
  linarith

/-- Helper: lower rational bound on the R182 density ratio, certified with
the exponent upper bound 213/50 and 50th against 213th integer powers. -/
theorem sigma_r182_ge : 0.7858 ≤ sigmaF r182cond := by
  have hx0 : (0 : ℝ) < 1 - 0.003566 * 8000 / 518.7 := by norm_num
  have hx1 : (1 : ℝ) - 0.003566 * 8000 / 518.7 ≤ 1 := by norm_num
  have hexp : (1 / 0.234957 : ℝ) ≤ 213 / 50 := by norm_num
  have h1 : (1 - 0.003566 * 8000 / 518.7 : ℝ) ^ ((213 / 50 : ℝ)) ≤ sigmaF r182cond := by
    show _ ≤ (1 - 0.003566 * 8000 / 518.7 : ℝ) ^ ((1 : ℝ) / 0.234957)
    exact Real.rpow_le_rpow_of_exponent_ge hx0 hx1 hexp
  refine le_trans ?_ h1
  by_contra hcon
  push_neg at hcon
  have h50 : ((1 - 0.003566 * 8000 / 518.7 : ℝ) ^ ((213 / 50 : ℝ))) ^ (50 : ℕ) <
      (0.7858 : ℝ) ^ (50 : ℕ) :=
    pow_lt_pow_left hcon (Real.rpow_nonneg hx0.le _) (by norm_num)
  have heq : ((1 - 0.003566 * 8000 / 518.7 : ℝ) ^ ((213 / 50 : ℝ))) ^ (50 : ℕ) =
      (1 - 0.003566 * 8000 / 518.7 : ℝ) ^ (213 : ℕ) := by
    rw [← Real.rpow_natCast ((1 - 0.003566 * 8000 / 518.7 : ℝ) ^ ((213 / 50 : ℝ))) 50,
      ← Real.rpow_mul hx0.le]
    rw [show (213 / 50 : ℝ) * ((50 : ℕ) : ℝ) = ((213 : ℕ) : ℝ) by push_cast; ring,
      Real.rpow_natCast]
  rw [heq] at h50
  have hcert : (0.7858 : ℝ) ^ (50 : ℕ) ≤
      ((1 : ℝ) - 0.003566 * 8000 / 518.7) ^ (213 : ℕ) := by
    norm_num
  linarith

/-- C8: for the R182 reference scenario (W=3100 lbs, h=8000 ft, N=2300 RPM,
65 percent power, S=174, B=36, P0=235, d=6.83, Z=0.688, tractor, BB=2,
C=0.12, TAF=195.9) the computed constants
sigma = (1-0.003566*h/518.7)^(1/0.234957), rho = 0.002377*sigma,
phi = (sigma-C)/(1-C), X = 0.001515*TAF-0.0880 and the tractor SDF cubic
are each within 1 percent of 0.786, 0.001868, 0.7568, 0.2088 and 0.910
respectively. -/
theorem r182_constants_within_tolerance (cd0v ev : ℝ) :
    |sigmaF r182cond - 0.786| ≤ 0.01 * 0.786 ∧
    |rhoF r182cond - 0.001868| ≤ 0.01 * 0.001868 ∧
    |phiF (r182plate cd0v ev) r182cond - 0.7568| ≤ 0.01 * 0.7568 ∧
    |Xfactor (r182plate cd0v ev) - 0.2088| ≤ 0.01 * 0.2088 ∧
    |sdfVal (r182plate cd0v ev) - 0.910| ≤ 0.01 * 0.910 := by
  have hle := sigma_r182_le
  have hge := sigma_r182_ge
  refine ⟨?_, ?_, ?_, ?_, ?_⟩
  · rw [abs_le]
    constructor <;> nlinarith
  · have hrho : rhoF r182cond = 0.002377 * sigmaF r182cond := rfl
    rw [hrho, abs_le]
    constructor <;> nlinarith
  · have hphi : phiF (r182plate cd0v ev) r182cond =
        sigmaF r182cond * (25 / 22) - 3 / 22 := by
      show (sigmaF r182cond - 0.12) / (1 - 0.12) = _
      ring
    rw [hphi, abs_le]
    constructor <;> nlinarith
  · have hX : Xfactor (r182plate cd0v ev) = 0.001515 * 195.9 - 0.0880 := rfl
    rw [hX, abs_le]
    constructor <;> norm_num
  · have hsdf : sdfVal (r182plate cd0v ev) = sdfTractor 0.688 := rfl
    rw [hsdf, sdfTractor, abs_le]
    constructor <;> norm_num

end Bootstrap
